import Mathlib

/-!
Verification of the Fibonacci example circuits (example1.rs, example2.rs,
example3.rs) against the specification of the PLONKish arithmetization and
constraint-satisfaction engine they rely on.

The engine itself (constraint-system builder, region/assignment layer,
copy-constraint resolver, instance binder, satisfiability checker) is an
external collaborator of the repository; its behaviour is modelled here from
the specification (spec sections 3-4).  The three circuits are translated
directly from the Rust sources.
-/

namespace Plonkish

/-- Modelled from the spec: a cell value is a tagged variant `{Unknown,
Known(F)}` (spec section 3 "Cell").  The same type models the `Value<F>`
wrapper the example circuits thread through witness generation. -/
inductive Value (F : Type) where
  | unknown : Value F
  | known : F → Value F
deriving DecidableEq

/-- Modelled from the spec: addition on wrapped values; any unknown operand
makes the result unknown. -/
def Value.add {F : Type} [Add F] : Value F → Value F → Value F
  | Value.known a, Value.known b => Value.known (a + b)
  | _, _ => Value.unknown

instance {F : Type} [Add F] : Add (Value F) := ⟨Value.add⟩

/-- Modelled from the spec: subtraction on wrapped values. -/
def Value.sub {F : Type} [Sub F] : Value F → Value F → Value F
  | Value.known a, Value.known b => Value.known (a - b)
  | _, _ => Value.unknown

/-- Modelled from the spec: multiplication on wrapped values. -/
def Value.mul {F : Type} [Mul F] : Value F → Value F → Value F
  | Value.known a, Value.known b => Value.known (a * b)
  | _, _ => Value.unknown

/-- Modelled from the spec: column identity is (kind, index); the examples
only ever query Advice and Instance columns (selectors are kept separate,
as a per-row flag set). -/
inductive Col where
  | advice : Nat → Col
  | inst : Nat → Col
deriving DecidableEq

/-- Modelled from the spec: a cell is a (column, absolute row) address. -/
structure Cell where
  col : Col
  row : Nat
deriving DecidableEq

/-- Modelled from the spec: an `AssignedCell` handle is a cell address plus a
cached copy of the value written there. -/
structure AssignedCell (F : Type) where
  cell : Cell
  val : Value F
deriving DecidableEq

/-- Modelled from the spec: a gate's polynomial expression tree over
(column, rotation) query terms; a rotation is a signed row offset. -/
inductive Expr (F : Type) where
  | const : F → Expr F
  | sel : Nat → Expr F
  | advice : Nat → Int → Expr F
  | add : Expr F → Expr F → Expr F
  | sub : Expr F → Expr F → Expr F
  | mul : Expr F → Expr F → Expr F
deriving DecidableEq

/-- Modelled from the spec: a gate is a diagnostic name plus one or more
polynomials, each required to equal zero wherever the gate is active. -/
structure Gate (F : Type) where
  name : String
  polys : List (Expr F)

/-- Modelled from the spec: the constraint-system builder state mutated by
`configure` (column counters, equality-enabled columns, gate list). -/
structure MetaState (F : Type) where
  numAdvice : Nat
  numInstance : Nat
  numSelectors : Nat
  eqEnabled : List Col
  gates : List (Gate F)

def MetaState.empty {F : Type} : MetaState F := ⟨0, 0, 0, [], []⟩

/-- Modelled from the spec: `meta.advice_column()` returns a fresh advice
column index. -/
def MetaState.advice_column {F : Type} (m : MetaState F) : Nat × MetaState F :=
  (m.numAdvice, { m with numAdvice := m.numAdvice + 1 })

/-- Modelled from the spec: `meta.instance_column()` returns a fresh instance
column index. -/
def MetaState.instance_column {F : Type} (m : MetaState F) : Nat × MetaState F :=
  (m.numInstance, { m with numInstance := m.numInstance + 1 })

/-- Modelled from the spec: `meta.selector()` returns a fresh selector index. -/
def MetaState.selector {F : Type} (m : MetaState F) : Nat × MetaState F :=
  (m.numSelectors, { m with numSelectors := m.numSelectors + 1 })

/-- Modelled from the spec: `meta.enable_equality(column)` marks a column as
eligible for copy constraints. -/
def MetaState.enable_equality {F : Type} (m : MetaState F) (c : Col) : MetaState F :=
  { m with eqEnabled := m.eqEnabled ++ [c] }

/-- Modelled from the spec: `meta.create_gate(name, builder)` appends a gate. -/
def MetaState.create_gate {F : Type} (m : MetaState F) (name : String)
    (polys : List (Expr F)) : MetaState F :=
  { m with gates := m.gates ++ [⟨name, polys⟩] }

/-- Modelled from the spec: the layouter state built during `synthesize`:
the write log of advice cells (later writes win), the set of enabled
(selector, absolute row) pairs, the declared copy constraints, the next free
absolute row for region placement, and the instance-column contents visible
during assignment. -/
structure LayoutState (F : Type) where
  log : List (Cell × Value F)
  sels : List (Nat × Nat)
  copies : List (Cell × Cell)
  nextRow : Nat
  pub : List (Value F)

def LayoutState.init {F : Type} (pub : List (Value F)) : LayoutState F :=
  ⟨[], [], [], 0, pub⟩

/-- Modelled from the spec: an in-flight region: the layouter state, the
region's base absolute row, and the number of local rows touched so far. -/
structure RegionState (F : Type) where
  st : LayoutState F
  base : Nat
  rows : Nat

/-- Modelled from the spec: touching local row `offset` extends the region's
height to cover it. -/
def RegionState.touch {F : Type} (r : RegionState F) (offset : Nat) : RegionState F :=
  { r with rows := max r.rows (offset + 1) }

/-- Modelled from the spec: `selector.enable(region, offset)` records the
selector as enabled at absolute row base + offset. -/
def RegionState.enable {F : Type} (r : RegionState F) (s offset : Nat) : RegionState F :=
  let r := r.touch offset
  { r with st := { r.st with sels := r.st.sels ++ [(s, r.base + offset)] } }

/-- Modelled from the spec: `region.assign_advice(column, offset, value)`
writes the value at (advice column, base + offset) and returns the handle. -/
def RegionState.assign_advice {F : Type} (r : RegionState F) (colIdx offset : Nat)
    (v : Value F) : AssignedCell F × RegionState F :=
  let r := r.touch offset
  let c : Cell := ⟨Col.advice colIdx, r.base + offset⟩
  (⟨c, v⟩, { r with st := { r.st with log := r.st.log ++ [(c, v)] } })

/-- Modelled from the spec: `cell.copy_advice(region, column, offset)`
propagates a previously assigned cell's value into a new cell and records a
copy constraint between them. -/
def RegionState.copy_advice {F : Type} (src : AssignedCell F) (r : RegionState F)
    (colIdx offset : Nat) : AssignedCell F × RegionState F :=
  let (c, r) := r.assign_advice colIdx offset src.val
  (c, { r with st := { r.st with copies := r.st.copies ++ [(src.cell, c.cell)] } })

/-- Modelled from the spec: `region.assign_advice_from_instance(inst_col,
inst_row, column, offset)` copies an instance value into an advice cell and
records a copy constraint binding them. -/
def RegionState.assign_advice_from_instance {F : Type} (r : RegionState F)
    (instCol instRow colIdx offset : Nat) : AssignedCell F × RegionState F :=
  let v := (r.st.pub.get? instRow).getD Value.unknown
  let (c, r) := r.assign_advice colIdx offset v
  (c, { r with st :=
    { r.st with copies := r.st.copies ++ [(⟨Col.inst instCol, instRow⟩, c.cell)] } })

/-- Modelled from the spec: `assign_region` places the region at the next
unused contiguous absolute-row block (regions are placed in call order) and
advances the free-row cursor by the region's height. -/
def LayoutState.assign_region {F α : Type} (st : LayoutState F)
    (body : RegionState F → α × RegionState F) : α × LayoutState F :=
  let (a, r) := body ⟨st, st.nextRow, 0⟩
  (a, { r.st with nextRow := r.base + r.rows })

/-- Modelled from the spec: `layouter.constrain_instance(cell, inst_col, row)`
records a copy constraint between the cell and the instance cell. -/
def LayoutState.constrain_instance {F : Type} (st : LayoutState F) (c : Cell)
    (instCol instRow : Nat) : LayoutState F :=
  { st with copies := st.copies ++ [(c, ⟨Col.inst instCol, instRow⟩)] }

/-- Modelled from the spec: the value of an advice cell in the frozen table;
later writes overwrite earlier ones, unwritten cells are Unknown. -/
def adviceVal {F : Type} (log : List (Cell × Value F)) (colIdx row : Nat) : Value F :=
  log.foldl (fun acc p => if p.1 = (⟨Col.advice colIdx, row⟩ : Cell) then p.2 else acc)
    Value.unknown

/-- Modelled from the spec: the checker resolves a cell to its value: advice
cells from the frozen table, instance cells as Known(public_input[row]) (spec
section 4.4). -/
def cellVal {F : Type} (log : List (Cell × Value F)) (pub : List F) : Cell → Value F
  | ⟨Col.advice i, r⟩ => adviceVal log i r
  | ⟨Col.inst _, r⟩ => (pub.get? r).elim Value.unknown Value.known

/-- Modelled from the spec: whether a selector is enabled at an absolute row
(defaults to disabled everywhere). -/
def selEnabled (sels : List (Nat × Nat)) (s row : Nat) : Bool :=
  sels.any (fun p => decide (p = (s, row)))

/-- Modelled from the spec: every rotation queried by the expression at row
`r` of an `n`-row table must land inside `[0, n)`; otherwise the gate is
skipped at that row (spec section 4.5). -/
def Expr.rotOk {F : Type} (n r : Nat) : Expr F → Bool
  | Expr.const _ => true
  | Expr.sel _ => true
  | Expr.advice _ rot => decide (0 ≤ (r : Int) + rot) && decide ((r : Int) + rot < (n : Int))
  | Expr.add a b => a.rotOk n r && b.rotOk n r
  | Expr.sub a b => a.rotOk n r && b.rotOk n r
  | Expr.mul a b => a.rotOk n r && b.rotOk n r

/-- Modelled from the spec: evaluation of a gate polynomial at row `r`:
selectors evaluate to 1 or 0, advice queries read the frozen table at the
rotated row, and any Unknown operand propagates. -/
def Expr.eval {F : Type} [CommRing F] (log : List (Cell × Value F))
    (sels : List (Nat × Nat)) (r : Nat) : Expr F → Value F
  | Expr.const c => Value.known c
  | Expr.sel s => Value.known (if selEnabled sels s r then 1 else 0)
  | Expr.advice i rot => adviceVal log i (((r : Int) + rot).toNat)
  | Expr.add a b => Value.add (a.eval log sels r) (b.eval log sels r)
  | Expr.sub a b => Value.sub (a.eval log sels r) (b.eval log sels r)
  | Expr.mul a b => Value.mul (a.eval log sels r) (b.eval log sels r)

/-- Modelled from the spec: the two kinds of accumulated check-time
violations (spec section 7). -/
inductive Violation (F : Type) where
  | unsatisfiedGate (name : String) (row : Nat)
  | copyViolated (a b : Cell) (va vb : F)
deriving DecidableEq

/-- Modelled from the spec: checking one gate polynomial at one row: skipped
when a rotation is out of range or an operand is Unknown; a violation is
recorded when the evaluation is Known and nonzero. -/
def checkPoly {F : Type} [CommRing F] [DecidableEq F] (log : List (Cell × Value F))
    (sels : List (Nat × Nat)) (n r : Nat) (gname : String) (p : Expr F) :
    Option (Violation F) :=
  if p.rotOk n r then
    match p.eval log sels r with
    | Value.known v => if v = 0 then none else some (Violation.unsatisfiedGate gname r)
    | Value.unknown => none
  else none

/-- Modelled from the spec: checking one declared copy constraint: a
violation is recorded when both endpoints resolve to Known values that
differ; any Unknown endpoint is vacuously satisfied. -/
def checkCopy {F : Type} [DecidableEq F] (log : List (Cell × Value F)) (pub : List F)
    (pr : Cell × Cell) : Option (Violation F) :=
  match cellVal log pub pr.1, cellVal log pub pr.2 with
  | Value.known v1, Value.known v2 =>
      if v1 = v2 then none else some (Violation.copyViolated pr.1 pr.2 v1 v2)
  | _, _ => none

/-- Modelled from the spec: row-major enumeration of all gate violations:
for each row, for each gate, for each polynomial, in order (spec section
4.5). -/
def gateViolations {F : Type} [CommRing F] [DecidableEq F] (gates : List (Gate F))
    (log : List (Cell × Value F)) (sels : List (Nat × Nat)) (n : Nat) :
    List (Violation F) :=
  (List.range n).flatMap fun r =>
    gates.flatMap fun g =>
      g.polys.filterMap fun p => checkPoly log sels n r g.name p

/-- Modelled from the spec: enumeration of all copy-constraint violations,
in declaration order. -/
def copyViolations {F : Type} [DecidableEq F] :
    List (Cell × Cell) → List (Cell × Value F) → List F → List (Violation F)
  | [], _, _ => []
  | pr :: rest, log, pub => (checkCopy log pub pr).toList ++ copyViolations rest log pub

/-- Modelled from the spec: the satisfiability checker (mock prover): it
scans every row and every gate, then every copy constraint, listing all
violations in a stable order (row-major over gates, then copy constraints)
and never aborting on the first one (spec section 4.5).  The result is `[]`
exactly when the circuit is satisfied. -/
def check {F : Type} [CommRing F] [DecidableEq F] (gates : List (Gate F))
    (st : LayoutState F) (pub : List F) (n : Nat) : List (Violation F) :=
  gateViolations gates st.log st.sels n ++ copyViolations st.copies st.log pub

/-- Modelled from the spec: the same scan written as a violation accumulator
that appends every violation it encounters and continues (the
"collected, never abort the scan" phrasing of spec section 7). -/
def checkAccum {F : Type} [CommRing F] [DecidableEq F] (gates : List (Gate F))
    (st : LayoutState F) (pub : List F) (n : Nat) : List (Violation F) :=
  let gateErrs := (List.range n).foldl (fun acc r =>
    gates.foldl (fun acc g =>
      g.polys.foldl (fun acc p =>
        acc ++ (checkPoly st.log st.sels n r g.name p).toList) acc) acc) []
  st.copies.foldl (fun acc pr => acc ++ (checkCopy st.log pub pr).toList) gateErrs

/-! ### Example 1: three advice columns, gate `s * (a + b - c)` at the
current row (translated from src/example1.rs). -/

namespace Ex1

/-- Translated from example1.rs `FiboConfig`: three advice columns, one
selector, one instance column. -/
structure FiboConfig where
  advice : Nat × Nat × Nat
  selector : Nat
  inst : Nat

/-- Translated from example1.rs `FiboChip::configure`. -/
def FiboChip.configure {F : Type} (meta : MetaState F) (advice : Nat × Nat × Nat)
    (inst : Nat) : FiboConfig × MetaState F :=
  let col_a := advice.1
  let col_b := advice.2.1
  let col_c := advice.2.2
  let (selector, meta) := meta.selector
  let meta := meta.enable_equality (Col.advice col_a)
  let meta := meta.enable_equality (Col.advice col_b)
  let meta := meta.enable_equality (Col.advice col_c)
  let meta := meta.enable_equality (Col.inst inst)
  let meta := meta.create_gate "add"
    [Expr.mul (Expr.sel selector)
      (Expr.sub (Expr.add (Expr.advice col_a 0) (Expr.advice col_b 0))
        (Expr.advice col_c 0))]
  (⟨(col_a, col_b, col_c), selector, inst⟩, meta)

/-- Translated from example1.rs `FiboChip::assign_first_row`: one region of
one row holding (a, b, a + b), selector enabled. -/
def FiboChip.assign_first_row {F : Type} [CommRing F] (config : FiboConfig)
    (a b : Value F) (st : LayoutState F) :
    (AssignedCell F × AssignedCell F × AssignedCell F) × LayoutState F :=
  st.assign_region fun region =>
    let region := region.enable config.selector 0
    let (a_cell, region) := region.assign_advice config.advice.1 0 a
    let (b_cell, region) := region.assign_advice config.advice.2.1 0 b
    let (c_cell, region) := region.assign_advice config.advice.2.2 0 (a + b)
    ((a_cell, b_cell, c_cell), region)

/-- Translated from example1.rs `FiboChip::assign_row`: one region of one
row copying prev_b and prev_c into the first two columns and writing their
sum into the third, selector enabled. -/
def FiboChip.assign_row {F : Type} [CommRing F] (config : FiboConfig)
    (prev_b prev_c : AssignedCell F) (st : LayoutState F) :
    AssignedCell F × LayoutState F :=
  st.assign_region fun region =>
    let region := region.enable config.selector 0
    let (_, region) := RegionState.copy_advice prev_b region config.advice.1 0
    let (_, region) := RegionState.copy_advice prev_c region config.advice.2.1 0
    let c_val := prev_b.val + prev_c.val
    let (c_cell, region) := region.assign_advice config.advice.2.2 0 c_val
    (c_cell, region)

/-- Translated from example1.rs `FiboChip::expose_public`. -/
def FiboChip.expose_public {F : Type} (config : FiboConfig) (cell : AssignedCell F)
    (row : Nat) (st : LayoutState F) : LayoutState F :=
  st.constrain_instance cell.cell config.inst row

/-- Translated from example1.rs `MyCircuit::configure`. -/
def MyCircuit.configure (F : Type) : FiboConfig × MetaState F :=
  let meta := MetaState.empty
  let (col_a, meta) := meta.advice_column
  let (col_b, meta) := meta.advice_column
  let (col_c, meta) := meta.advice_column
  let (inst, meta) := meta.instance_column
  FiboChip.configure meta (col_a, col_b, col_c) inst

/-- Translated from example1.rs `MyCircuit::synthesize`: first row, two
public exposures, seven `assign_row` calls (the loop `for _i in 3..10`),
final exposure of the last output cell at instance row 2. -/
def MyCircuit.synthesize {F : Type} [CommRing F] (config : FiboConfig)
    (a b : Value F) (st : LayoutState F) : LayoutState F :=
  let ((prev_a, prev_b, prev_c), st) := FiboChip.assign_first_row config a b st
  let st := FiboChip.expose_public config prev_a 0 st
  let st := FiboChip.expose_public config prev_b 1 st
  let (pbc, st) := (List.range' 3 7).foldl
    (fun (acc : (AssignedCell F × AssignedCell F) × LayoutState F) _i =>
      let ((prev_b, prev_c), st) := acc
      let (c_cell, st) := FiboChip.assign_row config prev_b prev_c st
      ((prev_c, c_cell), st))
    ((prev_b, prev_c), st)
  FiboChip.expose_public config pbc.2 2 st

/-- The full MockProver-style run of example1: configure, synthesize with
witness seeds `a`, `b` and the public-input column contents, then check over
`2 ^ k` rows. -/
def run {F : Type} [CommRing F] [DecidableEq F] (a b : Value F) (pub : List F)
    (k : Nat) : List (Violation F) :=
  let (config, meta) := MyCircuit.configure F
  check meta.gates
    (MyCircuit.synthesize config a b (LayoutState.init (pub.map Value.known)))
    pub (2 ^ k)

end Ex1

/-- The Pallas base field modulus used by the examples (pasta `Fp`). -/
def pastaP : Nat :=
  28948022309329048855892746252171976963363056481941560715954676764349967630337

/-- The concrete field the examples instantiate (`halo2_proofs::pasta::Fp`). -/
abbrev Fp := ZMod pastaP

/-! ### The frozen artifacts of example1's synthesis: the write log, the
enabled selectors, and the copy constraints, as explicit lists.  `ex1_synth_eq`
proves the translated `synthesize` produces exactly these. -/

/-- The Fibonacci-style recurrence of the examples: term 0 is `a`, term 1 is
`b`, and every later term is the sum of the two before it. -/
def fibSeq {F : Type} [Add F] (a b : F) : Nat → F
  | 0 => a
  | 1 => b
  | n + 2 => fibSeq a b n + fibSeq a b (n + 1)

/-- Example1's frozen advice write log for witness seeds `a`, `b`: row `r`
holds the recurrence terms `r`, `r + 1`, `r + 2` in its three columns. -/
def ex1Log {F : Type} [Add F] (a b : F) : List (Cell × Value F) :=
  [(⟨Col.advice 0, 0⟩, Value.known a),
   (⟨Col.advice 1, 0⟩, Value.known b),
   (⟨Col.advice 2, 0⟩, Value.known (a + b)),
   (⟨Col.advice 0, 1⟩, Value.known b),
   (⟨Col.advice 1, 1⟩, Value.known (a + b)),
   (⟨Col.advice 2, 1⟩, Value.known (b + (a + b))),
   (⟨Col.advice 0, 2⟩, Value.known (a + b)),
   (⟨Col.advice 1, 2⟩, Value.known (b + (a + b))),
   (⟨Col.advice 2, 2⟩, Value.known ((a + b) + (b + (a + b)))),
   (⟨Col.advice 0, 3⟩, Value.known (b + (a + b))),
   (⟨Col.advice 1, 3⟩, Value.known ((a + b) + (b + (a + b)))),
   (⟨Col.advice 2, 3⟩, Value.known ((b + (a + b)) + ((a + b) + (b + (a + b))))),
   (⟨Col.advice 0, 4⟩, Value.known ((a + b) + (b + (a + b)))),
   (⟨Col.advice 1, 4⟩, Value.known ((b + (a + b)) + ((a + b) + (b + (a + b))))),
   (⟨Col.advice 2, 4⟩, Value.known (((a + b) + (b + (a + b))) + ((b + (a + b)) + ((a + b) + (b + (a + b)))))),
   (⟨Col.advice 0, 5⟩, Value.known ((b + (a + b)) + ((a + b) + (b + (a + b))))),
   (⟨Col.advice 1, 5⟩, Value.known (((a + b) + (b + (a + b))) + ((b + (a + b)) + ((a + b) + (b + (a + b)))))),
   (⟨Col.advice 2, 5⟩, Value.known (((b + (a + b)) + ((a + b) + (b + (a + b)))) + (((a + b) + (b + (a + b))) + ((b + (a + b)) + ((a + b) + (b + (a + b))))))),
   (⟨Col.advice 0, 6⟩, Value.known (((a + b) + (b + (a + b))) + ((b + (a + b)) + ((a + b) + (b + (a + b)))))),
   (⟨Col.advice 1, 6⟩, Value.known (((b + (a + b)) + ((a + b) + (b + (a + b)))) + (((a + b) + (b + (a + b))) + ((b + (a + b)) + ((a + b) + (b + (a + b))))))),
   (⟨Col.advice 2, 6⟩, Value.known ((((a + b) + (b + (a + b))) + ((b + (a + b)) + ((a + b) + (b + (a + b))))) + (((b + (a + b)) + ((a + b) + (b + (a + b)))) + (((a + b) + (b + (a + b))) + ((b + (a + b)) + ((a + b) + (b + (a + b)))))))),
   (⟨Col.advice 0, 7⟩, Value.known (((b + (a + b)) + ((a + b) + (b + (a + b)))) + (((a + b) + (b + (a + b))) + ((b + (a + b)) + ((a + b) + (b + (a + b))))))),
   (⟨Col.advice 1, 7⟩, Value.known ((((a + b) + (b + (a + b))) + ((b + (a + b)) + ((a + b) + (b + (a + b))))) + (((b + (a + b)) + ((a + b) + (b + (a + b)))) + (((a + b) + (b + (a + b))) + ((b + (a + b)) + ((a + b) + (b + (a + b)))))))),
   (⟨Col.advice 2, 7⟩, Value.known ((((b + (a + b)) + ((a + b) + (b + (a + b)))) + (((a + b) + (b + (a + b))) + ((b + (a + b)) + ((a + b) + (b + (a + b)))))) + ((((a + b) + (b + (a + b))) + ((b + (a + b)) + ((a + b) + (b + (a + b))))) + (((b + (a + b)) + ((a + b) + (b + (a + b)))) + (((a + b) + (b + (a + b))) + ((b + (a + b)) + ((a + b) + (b + (a + b)))))))))]

/-- Example1's enabled selector set: selector 0 on rows 0 through 7. -/
def ex1Sels : List (Nat × Nat) := [(0, 0), (0, 1), (0, 2), (0, 3), (0, 4), (0, 5), (0, 6), (0, 7)]

/-- Example1's copy constraints: the two seed exposures, two copies per
`assign_row` region, and the final output exposure at instance row 2. -/
def ex1Copies : List (Cell × Cell) :=
  [(⟨Col.advice 0, 0⟩, ⟨Col.inst 0, 0⟩),
   (⟨Col.advice 1, 0⟩, ⟨Col.inst 0, 1⟩),
   (⟨Col.advice 1, 0⟩, ⟨Col.advice 0, 1⟩),
   (⟨Col.advice 2, 0⟩, ⟨Col.advice 1, 1⟩),
   (⟨Col.advice 2, 0⟩, ⟨Col.advice 0, 2⟩),
   (⟨Col.advice 2, 1⟩, ⟨Col.advice 1, 2⟩),
   (⟨Col.advice 2, 1⟩, ⟨Col.advice 0, 3⟩),
   (⟨Col.advice 2, 2⟩, ⟨Col.advice 1, 3⟩),
   (⟨Col.advice 2, 2⟩, ⟨Col.advice 0, 4⟩),
   (⟨Col.advice 2, 3⟩, ⟨Col.advice 1, 4⟩),
   (⟨Col.advice 2, 3⟩, ⟨Col.advice 0, 5⟩),
   (⟨Col.advice 2, 4⟩, ⟨Col.advice 1, 5⟩),
   (⟨Col.advice 2, 4⟩, ⟨Col.advice 0, 6⟩),
   (⟨Col.advice 2, 5⟩, ⟨Col.advice 1, 6⟩),
   (⟨Col.advice 2, 5⟩, ⟨Col.advice 0, 7⟩),
   (⟨Col.advice 2, 6⟩, ⟨Col.advice 1, 7⟩),
   (⟨Col.advice 2, 7⟩, ⟨Col.inst 0, 2⟩)]

/-- Example1's gate list as built by `configure`: the single gate
`s * (a + b - c)` on the current row. -/
def ex1Gates {F : Type} : List (Gate F) :=
  [⟨"add", [Expr.mul (Expr.sel 0)
    (Expr.sub (Expr.add (Expr.advice 0 0) (Expr.advice 1 0)) (Expr.advice 2 0))]⟩]

set_option maxHeartbeats 1000000 in
set_option maxRecDepth 100000 in
/-- Example1's `synthesize` freezes exactly the artifacts above; the
public-input list is irrelevant to the produced layout and witness. -/
theorem ex1_synth_eq {F : Type} [CommRing F] (a b : F) (pub : List F) :
    Ex1.MyCircuit.synthesize ⟨(0, 1, 2), 0, 0⟩ (Value.known a) (Value.known b)
      (LayoutState.init (pub.map Value.known)) =
    ⟨ex1Log a b, ex1Sels, ex1Copies, 8, pub.map Value.known⟩ := by
  simp only [Ex1.MyCircuit.synthesize, Ex1.FiboChip.assign_first_row,
    Ex1.FiboChip.assign_row, Ex1.FiboChip.expose_public,
    LayoutState.assign_region, LayoutState.constrain_instance, LayoutState.init,
    RegionState.enable, RegionState.touch, RegionState.assign_advice,
    RegionState.copy_advice, RegionState.assign_advice_from_instance,
    Value.add, HAdd.hAdd, Add.add, List.range', List.foldl, List.map,
    List.append, List.cons_append, List.nil_append, List.append_assoc,
    ex1Log, ex1Sels, ex1Copies]
  norm_num

set_option maxHeartbeats 1000000 in
set_option maxRecDepth 100000 in
/-- Example1's run is the row-major gate scan followed by the copy scan over
the frozen artifacts. -/
theorem ex1_run_eq {F : Type} [CommRing F] [DecidableEq F] (a b : F) (pub : List F) :
    Ex1.run (Value.known a) (Value.known b) pub 4 =
      gateViolations ex1Gates (ex1Log a b) ex1Sels 16 ++
        copyViolations ex1Copies (ex1Log a b) pub := by
  simp only [Ex1.run, Ex1.MyCircuit.configure, Ex1.FiboChip.configure,
    MetaState.empty, MetaState.advice_column, MetaState.instance_column,
    MetaState.selector, MetaState.enable_equality, MetaState.create_gate,
    check, ex1Gates]
  rw [ex1_synth_eq]
  norm_num

set_option maxHeartbeats 2000000 in
set_option maxRecDepth 100000 in
/-- Every gate instance of example1 is satisfied, for any witness seeds:
each row's third column is by construction the sum of the other two. -/
theorem ex1_gate_ok {F : Type} [CommRing F] [DecidableEq F] (a b : F) :
    gateViolations ex1Gates (ex1Log (F := F) a b) ex1Sels 16 = [] := by
  simp [gateViolations, checkPoly, Expr.eval, Expr.rotOk, adviceVal, selEnabled,
    ex1Gates, ex1Log, ex1Sels, Value.add, Value.sub, Value.mul,
    List.foldl, List.any, sub_self]
  intro x hx
  interval_cases x <;> simp [sub_self]


set_option maxRecDepth 100000 in
/-- Unfolding of the 10th recurrence term (index 9) into its explicit sum
tree, matching the shape the circuit builds. -/
theorem fibSeq_nine {F : Type} [AddCommMonoid F] (a b : F) :
    fibSeq a b 9 = ((((b + (a + b)) + ((a + b) + (b + (a + b)))) + (((a + b) + (b + (a + b))) + ((b + (a + b)) + ((a + b) + (b + (a + b)))))) + ((((a + b) + (b + (a + b))) + ((b + (a + b)) + ((a + b) + (b + (a + b))))) + (((b + (a + b)) + ((a + b) + (b + (a + b)))) + (((a + b) + (b + (a + b))) + ((b + (a + b)) + ((a + b) + (b + (a + b)))))))) := rfl

set_option maxHeartbeats 1000000 in
set_option maxRecDepth 100000 in
/-- Every copy constraint of example1 is satisfied when the public inputs
are the two seeds and the 10th recurrence term. -/
theorem ex1_copy_ok {F : Type} [CommRing F] [DecidableEq F] (a b : F) :
    copyViolations ex1Copies (ex1Log a b) [a, b, fibSeq a b 9] = [] := by
  simp [copyViolations, checkCopy, cellVal, adviceVal, ex1Copies, ex1Log,
    List.foldl, List.get?, fibSeq_nine]

set_option maxHeartbeats 1000000 in
set_option maxRecDepth 100000 in
/-- Mutating only instance row 0 away from the bound seed leaves exactly the
one copy violation at instance row 0. -/
theorem ex1_copy_mut0 {F : Type} [CommRing F] [DecidableEq F] (v : F) (hv : v ≠ 1) :
    copyViolations ex1Copies (ex1Log (1 : F) 1) [v, 1, 55] =
      [Violation.copyViolated ⟨Col.advice 0, 0⟩ ⟨Col.inst 0, 0⟩ 1 v] := by
  norm_num [copyViolations, checkCopy, cellVal, adviceVal, ex1Copies, ex1Log,
    List.foldl, List.get?, hv, Ne.symm hv]

set_option maxHeartbeats 1000000 in
set_option maxRecDepth 100000 in
/-- Mutating only instance row 1 away from the bound seed leaves exactly the
one copy violation at instance row 1. -/
theorem ex1_copy_mut1 {F : Type} [CommRing F] [DecidableEq F] (v : F) (hv : v ≠ 1) :
    copyViolations ex1Copies (ex1Log (1 : F) 1) [1, v, 55] =
      [Violation.copyViolated ⟨Col.advice 1, 0⟩ ⟨Col.inst 0, 1⟩ 1 v] := by
  norm_num [copyViolations, checkCopy, cellVal, adviceVal, ex1Copies, ex1Log,
    List.foldl, List.get?, hv, Ne.symm hv]

set_option maxHeartbeats 1000000 in
set_option maxRecDepth 100000 in
/-- Mutating only instance row 2 away from 55 leaves exactly the one copy
violation at instance row 2, with the computed output value 55. -/
theorem ex1_copy_mut2 {F : Type} [CommRing F] [DecidableEq F] (v : F) (hv : v ≠ 55) :
    copyViolations ex1Copies (ex1Log (1 : F) 1) [1, 1, v] =
      [Violation.copyViolated ⟨Col.advice 2, 7⟩ ⟨Col.inst 0, 2⟩ 55 v] := by
  norm_num [copyViolations, checkCopy, cellVal, adviceVal, ex1Copies, ex1Log,
    List.foldl, List.get?, hv, Ne.symm hv]

/-- C1: example1 with witness seeds a = 1, b = 1 (first row 1, 1, 2) and
public inputs [1, 1, 55] bound at instance rows 0, 1 and the last output
cell satisfies the check: the mock-prover run over 2 ^ 4 rows reports no
violations, because the 10th Fibonacci-style term is 55. -/
theorem c1_example1_check_satisfied :
    Ex1.run (F := Fp) (Value.known 1) (Value.known 1) [1, 1, 55] 4 = [] := by decide

/-- C2: with example1's witness table held fixed (seeds 1, 1), changing
exactly one public input bound via expose_public yields exactly one
CopyConstraintViolated at that instance row, no UnsatisfiedGate entries and
no violation for any other row; in particular changing the third public
input from 55 to a different value flags only instance row 2. -/
theorem c2_example1_single_mutation (v : Fp) :
    (v ≠ 1 → Ex1.run (Value.known 1) (Value.known 1) [v, 1, 55] 4 =
      [Violation.copyViolated ⟨Col.advice 0, 0⟩ ⟨Col.inst 0, 0⟩ 1 v]) ∧
    (v ≠ 1 → Ex1.run (Value.known 1) (Value.known 1) [1, v, 55] 4 =
      [Violation.copyViolated ⟨Col.advice 1, 0⟩ ⟨Col.inst 0, 1⟩ 1 v]) ∧
    (v ≠ 55 → Ex1.run (Value.known 1) (Value.known 1) [1, 1, v] 4 =
      [Violation.copyViolated ⟨Col.advice 2, 7⟩ ⟨Col.inst 0, 2⟩ 55 v]) := by
  refine ⟨fun hv => ?_, fun hv => ?_, fun hv => ?_⟩ <;>
    rw [ex1_run_eq, ex1_gate_ok] <;>
    [rw [ex1_copy_mut0 v hv]; rw [ex1_copy_mut1 v hv]; rw [ex1_copy_mut2 v hv]] <;>
    rfl

/-- Witness for C2 at the concrete mutation 55 to 56 (and seed mutations to
2): all three hypotheses are dischargeable. -/
theorem c2_example1_single_mutation_witness :
    Ex1.run (Value.known 1) (Value.known 1) [(2 : Fp), 1, 55] 4 =
      [Violation.copyViolated ⟨Col.advice 0, 0⟩ ⟨Col.inst 0, 0⟩ 1 2] ∧
    Ex1.run (Value.known 1) (Value.known 1) [1, (2 : Fp), 55] 4 =
      [Violation.copyViolated ⟨Col.advice 1, 0⟩ ⟨Col.inst 0, 1⟩ 1 2] ∧
    Ex1.run (Value.known 1) (Value.known 1) [1, 1, (56 : Fp)] 4 =
      [Violation.copyViolated ⟨Col.advice 2, 7⟩ ⟨Col.inst 0, 2⟩ 55 56] :=
  ⟨(c2_example1_single_mutation 2).1 (by decide),
   (c2_example1_single_mutation 2).2.1 (by decide),
   (c2_example1_single_mutation 56).2.2 (by decide)⟩

/-- C10: for every pair of field elements a and b, example1's circuit with
witness seeds a and b and public inputs [a, b, t10] is satisfied by the
check, where t10 = fibSeq a b 9 is the 10th term of the recurrence
t1 = a, t2 = b, t(n) = t(n-1) + t(n-2). -/
theorem c10_example1_all_seeds_satisfied {F : Type} [Field F] [DecidableEq F]
    (a b : F) :
    Ex1.run (Value.known a) (Value.known b) [a, b, fibSeq a b 9] 4 = [] := by
  rw [ex1_run_eq, ex1_gate_ok, ex1_copy_ok]
  rfl


/-! ### Example 2: one advice column, gate `s * (a + b - c)` with rotations
0, 1, 2 (translated from src/example2.rs). -/

namespace Ex2

/-- Translated from example2.rs `FiboConfig`: one advice column, one
selector, one instance column. -/
structure FiboConfig where
  advice : Nat
  selector : Nat
  inst : Nat

/-- Translated from example2.rs `FiboChip::configure`: the gate queries the
single advice column at the current row, the next row and rotation 2. -/
def FiboChip.configure {F : Type} (meta : MetaState F) (advice : Nat)
    (inst : Nat) : FiboConfig × MetaState F :=
  let (selector, meta) := meta.selector
  let meta := meta.enable_equality (Col.advice advice)
  let meta := meta.enable_equality (Col.inst inst)
  let meta := meta.create_gate "add"
    [Expr.mul (Expr.sel selector)
      (Expr.sub (Expr.add (Expr.advice advice 0) (Expr.advice advice 1))
        (Expr.advice advice 2))]
  (⟨advice, selector, inst⟩, meta)

/-- Translated from example2.rs `FiboChip::assign`, loop body: at each row
of `for row in 2..nrows`, enable the selector when row < nrows - 2 and write
the sum of the previous two cells. -/
def FiboChip.loopStep {F : Type} [CommRing F] (config : FiboConfig) (nrows : Nat)
    (acc : (AssignedCell F × AssignedCell F) × RegionState F) (row : Nat) :
    (AssignedCell F × AssignedCell F) × RegionState F :=
  let a_cell := acc.1.1
  let b_cell := acc.1.2
  let region := acc.2
  let region := if row < nrows - 2 then region.enable config.selector row else region
  let (c_cell, region) := region.assign_advice config.advice row (a_cell.val + b_cell.val)
  ((b_cell, c_cell), region)

/-- Translated from example2.rs `FiboChip::assign`: one region holding the
entire table; the two seeds are copied in from instance rows 0 and 1, then
rows 2 to nrows - 1 each hold the sum of the previous two (`loopStep`),
and the final b cell is returned. -/
def FiboChip.assign {F : Type} [CommRing F] (config : FiboConfig) (nrows : Nat)
    (st : LayoutState F) : AssignedCell F × LayoutState F :=
  st.assign_region fun region =>
    let region := region.enable config.selector 0
    let (a_cell, region) := region.assign_advice_from_instance config.inst 0 config.advice 0
    let (b_cell, region) := region.assign_advice_from_instance config.inst 1 config.advice 1
    let acc := (List.range' 2 (nrows - 2)).foldl (FiboChip.loopStep config nrows)
      ((a_cell, b_cell), region)
    (acc.1.2, acc.2)

/-- Translated from example2.rs `FiboChip::expose_public`. -/
def FiboChip.expose_public {F : Type} (config : FiboConfig) (cell : AssignedCell F)
    (row : Nat) (st : LayoutState F) : LayoutState F :=
  st.constrain_instance cell.cell config.inst row

/-- Translated from example2.rs tests `MyCircuit::configure`. -/
def MyCircuit.configure (F : Type) : FiboConfig × MetaState F :=
  let meta := MetaState.empty
  let (advice, meta) := meta.advice_column
  let (inst, meta) := meta.instance_column
  FiboChip.configure meta advice inst

/-- Translated from example2.rs tests `MyCircuit::synthesize`: assign 10 rows
and expose the output cell at instance row 2. -/
def MyCircuit.synthesize {F : Type} [CommRing F] (config : FiboConfig)
    (st : LayoutState F) : LayoutState F :=
  let (output_cell, st) := FiboChip.assign config 10 st
  FiboChip.expose_public config output_cell 2 st

/-- The full MockProver-style run of example2 over 2 ^ k rows. -/
def run {F : Type} [CommRing F] [DecidableEq F] (pub : List F) (k : Nat) :
    List (Violation F) :=
  let (config, meta) := MyCircuit.configure F
  check meta.gates
    (MyCircuit.synthesize config (LayoutState.init (pub.map Value.known)))
    pub (2 ^ k)

end Ex2

/-! ### Example 3: two advice columns, gates `s * (a + b - c)` and
`s * (b + c - d)` with next-row rotations (translated from src/example3.rs). -/

namespace Ex3

/-- Translated from example3.rs `FiboConfig`: two advice columns, one
selector, one instance column. -/
structure FiboConfig where
  advice : Nat × Nat
  selector : Nat
  inst : Nat

/-- Translated from example3.rs `FiboChip::configure`: the gate "add1" has
two polynomials over the current and next rows. -/
def FiboChip.configure {F : Type} (meta : MetaState F) (advice : Nat × Nat)
    (inst : Nat) : FiboConfig × MetaState F :=
  let col_a := advice.1
  let col_b := advice.2
  let (selector, meta) := meta.selector
  let meta := meta.enable_equality (Col.advice col_a)
  let meta := meta.enable_equality (Col.advice col_b)
  let meta := meta.enable_equality (Col.inst inst)
  let meta := meta.create_gate "add1"
    [Expr.mul (Expr.sel selector)
      (Expr.sub (Expr.add (Expr.advice col_a 0) (Expr.advice col_b 0))
        (Expr.advice col_a 1)),
     Expr.mul (Expr.sel selector)
      (Expr.sub (Expr.add (Expr.advice col_b 0) (Expr.advice col_a 1))
        (Expr.advice col_b 1))]
  (⟨(col_a, col_b), selector, inst⟩, meta)

/-- Translated from example3.rs `FiboChip::assign`: one region; both
first-row cells are copied in from instance row 0, row 1 is assigned
explicitly with the selector enabled, and rows 2 to nrows - 1 each pack two
further recurrence terms, the selector being enabled at rows with
row < nrows - 1. -/
def FiboChip.assign {F : Type} [CommRing F] (config : FiboConfig) (nrows : Nat)
    (st : LayoutState F) : AssignedCell F × LayoutState F :=
  st.assign_region fun region =>
    let region := region.enable config.selector 0
    let (a_cell, region) := region.assign_advice_from_instance config.inst 0 config.advice.1 0
    let (b_cell, region) := region.assign_advice_from_instance config.inst 0 config.advice.2 0
    let region := region.enable config.selector 1
    let (a_cell, region) := region.assign_advice config.advice.1 1 (a_cell.val + b_cell.val)
    let (b_cell, region) := region.assign_advice config.advice.2 1 (a_cell.val + b_cell.val)
    let (ab, region) := (List.range' 2 (nrows - 2)).foldl
      (fun (acc : (AssignedCell F × AssignedCell F) × RegionState F) row =>
        let ((a_cell, b_cell), region) := acc
        let region := if row < nrows - 1 then region.enable config.selector row else region
        let (a_cell, region) := region.assign_advice config.advice.1 row (a_cell.val + b_cell.val)
        let (b_cell, region) := region.assign_advice config.advice.2 row (a_cell.val + b_cell.val)
        ((a_cell, b_cell), region))
      ((a_cell, b_cell), region)
    (ab.2, region)

/-- Translated from example3.rs `FiboChip::expose_public`. -/
def FiboChip.expose_public {F : Type} (config : FiboConfig) (cell : AssignedCell F)
    (row : Nat) (st : LayoutState F) : LayoutState F :=
  st.constrain_instance cell.cell config.inst row

/-- Translated from example3.rs tests `MyCircuit::configure`. -/
def MyCircuit.configure (F : Type) : FiboConfig × MetaState F :=
  let meta := MetaState.empty
  let (col_a, meta) := meta.advice_column
  let (col_b, meta) := meta.advice_column
  let (inst, meta) := meta.instance_column
  FiboChip.configure meta (col_a, col_b) inst

/-- Translated from example3.rs tests `MyCircuit::synthesize`: assign 5 rows
and expose the output cell at instance row 2. -/
def MyCircuit.synthesize {F : Type} [CommRing F] (config : FiboConfig)
    (st : LayoutState F) : LayoutState F :=
  let (out_cell, st) := FiboChip.assign config 5 st
  FiboChip.expose_public config out_cell 2 st

/-- The full MockProver-style run of example3 over 2 ^ k rows. -/
def run {F : Type} [CommRing F] [DecidableEq F] (pub : List F) (k : Nat) :
    List (Violation F) :=
  let (config, meta) := MyCircuit.configure F
  check meta.gates
    (MyCircuit.synthesize config (LayoutState.init (pub.map Value.known)))
    pub (2 ^ k)

end Ex3


/-- The ten Fibonacci-style values both circuits are expected to compute. -/
def fibTen : List Fp := [1, 1, 2, 3, 5, 8, 13, 21, 34, 55]

/-- C3 counterexample: the claim that the 2-column variant (example3) and
the 3-column variant (example1) agree on satisfiability for every common
mutation of the public inputs [1, 1, 55] fails at the concrete mutation
[1, 2, 55]: example3 is still satisfied (it never binds instance row 1)
while example1 is not. -/
theorem c3_counterexample_disagreement :
    Ex3.run (F := Fp) [1, 2, 55] 4 = [] ∧
    Ex1.run (F := Fp) (Value.known 1) (Value.known 1) [1, 2, 55] 4 ≠ [] := by decide

/-- C3 amended: example3 (2 columns, 5 rows, double recurrence) computes
exactly the same ten Fibonacci values as example1 (3 columns, 8 rows); both
are satisfied by public inputs [1, 1, 55]; both are unsatisfied by mutations
of public input 0 (to 2) and of public input 2 (to 56); but they disagree on
a mutation of public input 1 (to 2): example1 becomes unsatisfied while
example3 stays satisfied, because example3 copies instance row 0 into both
seed cells and never references instance row 1. -/
theorem c3_amended_fib_agreement :
    ((List.range 10).map (fun k =>
        adviceVal (Ex3.MyCircuit.synthesize (Ex3.MyCircuit.configure Fp).1
          (LayoutState.init (([1, 1, 55] : List Fp).map Value.known))).log
          (k % 2) (k / 2)) = fibTen.map Value.known ∧
     (List.range 10).map (fun k =>
        adviceVal (Ex1.MyCircuit.synthesize (Ex1.MyCircuit.configure Fp).1
          (Value.known 1) (Value.known 1)
          (LayoutState.init (([1, 1, 55] : List Fp).map Value.known))).log
          (if k = 0 then 0 else if k = 1 then 1 else 2)
          (if k = 0 then 0 else if k = 1 then 0 else k - 2)) =
        fibTen.map Value.known) ∧
    (Ex1.run (F := Fp) (Value.known 1) (Value.known 1) [1, 1, 55] 4 = [] ∧
     Ex3.run (F := Fp) [1, 1, 55] 4 = []) ∧
    (Ex1.run (F := Fp) (Value.known 1) (Value.known 1) [2, 1, 55] 4 ≠ [] ∧
     Ex3.run (F := Fp) [2, 1, 55] 4 ≠ []) ∧
    (Ex1.run (F := Fp) (Value.known 1) (Value.known 1) [1, 1, 56] 4 ≠ [] ∧
     Ex3.run (F := Fp) [1, 1, 56] 4 ≠ []) ∧
    (Ex1.run (F := Fp) (Value.known 1) (Value.known 1) [1, 2, 55] 4 ≠ [] ∧
     Ex3.run (F := Fp) [1, 2, 55] 4 = []) := by decide

/-- C7: the two sources use different boundary rules for disabling the gate
near the end of the table: example2's loop enables the selector only at rows
r with r < nrows - 2 (so, with nrows = 10, at {0} ∪ {2..7}), while
example3's loop enables it at rows r with r < nrows - 1 (so, with nrows = 5,
at {0, 1} ∪ {2, 3}); both circuits nevertheless satisfy their checks on
public inputs [1, 1, 55]. -/
theorem c7_inconsistent_boundary_rules :
    (List.range 16).filter (fun r =>
        selEnabled (Ex2.MyCircuit.synthesize (Ex2.MyCircuit.configure Fp).1
          (LayoutState.init (([1, 1, 55] : List Fp).map Value.known))).sels 0 r) =
      [0] ++ (List.range' 2 (10 - 2)).filter (fun r => r < 10 - 2) ∧
    (List.range 16).filter (fun r =>
        selEnabled (Ex3.MyCircuit.synthesize (Ex3.MyCircuit.configure Fp).1
          (LayoutState.init (([1, 1, 55] : List Fp).map Value.known))).sels 0 r) =
      [0, 1] ++ (List.range' 2 (5 - 2)).filter (fun r => r < 5 - 1) ∧
    Ex2.run (F := Fp) [1, 1, 55] 4 = [] ∧
    Ex3.run (F := Fp) [1, 1, 55] 4 = [] := by decide


/-! ### The frozen artifacts of example3's synthesis. -/

/-- Example3's frozen advice write log: both seed cells take the value of
instance row 0, and each later cell is the sum of the two cells written just
before it (row r holds recurrence terms 2r and 2r + 1). -/
def ex3Log {F : Type} [Add F] (p0 : F) : List (Cell × Value F) :=
  [(⟨Col.advice 0, 0⟩, Value.known p0),
   (⟨Col.advice 1, 0⟩, Value.known p0),
   (⟨Col.advice 0, 1⟩, Value.known (p0 + p0)),
   (⟨Col.advice 1, 1⟩, Value.known ((p0 + p0) + p0)),
   (⟨Col.advice 0, 2⟩, Value.known ((p0 + p0) + ((p0 + p0) + p0))),
   (⟨Col.advice 1, 2⟩, Value.known (((p0 + p0) + ((p0 + p0) + p0)) + ((p0 + p0) + p0))),
   (⟨Col.advice 0, 3⟩, Value.known (((p0 + p0) + ((p0 + p0) + p0)) + (((p0 + p0) + ((p0 + p0) + p0)) + ((p0 + p0) + p0)))),
   (⟨Col.advice 1, 3⟩, Value.known ((((p0 + p0) + ((p0 + p0) + p0)) + (((p0 + p0) + ((p0 + p0) + p0)) + ((p0 + p0) + p0))) + (((p0 + p0) + ((p0 + p0) + p0)) + ((p0 + p0) + p0)))),
   (⟨Col.advice 0, 4⟩, Value.known ((((p0 + p0) + ((p0 + p0) + p0)) + (((p0 + p0) + ((p0 + p0) + p0)) + ((p0 + p0) + p0))) + ((((p0 + p0) + ((p0 + p0) + p0)) + (((p0 + p0) + ((p0 + p0) + p0)) + ((p0 + p0) + p0))) + (((p0 + p0) + ((p0 + p0) + p0)) + ((p0 + p0) + p0))))),
   (⟨Col.advice 1, 4⟩, Value.known (((((p0 + p0) + ((p0 + p0) + p0)) + (((p0 + p0) + ((p0 + p0) + p0)) + ((p0 + p0) + p0))) + ((((p0 + p0) + ((p0 + p0) + p0)) + (((p0 + p0) + ((p0 + p0) + p0)) + ((p0 + p0) + p0))) + (((p0 + p0) + ((p0 + p0) + p0)) + ((p0 + p0) + p0)))) + ((((p0 + p0) + ((p0 + p0) + p0)) + (((p0 + p0) + ((p0 + p0) + p0)) + ((p0 + p0) + p0))) + (((p0 + p0) + ((p0 + p0) + p0)) + ((p0 + p0) + p0)))))]

/-- Example3's enabled selector set: selector 0 on rows 0 through 3 (the
loop uses the boundary rule row < nrows - 1 with nrows = 5). -/
def ex3Sels : List (Nat × Nat) := [(0, 0), (0, 1), (0, 2), (0, 3)]

/-- Example3's copy constraints: both first-row advice cells are bound to
instance row 0, and the output cell (column 1, row 4) to instance row 2;
instance row 1 is never referenced. -/
def ex3Copies : List (Cell × Cell) :=
  [(⟨Col.inst 0, 0⟩, ⟨Col.advice 0, 0⟩),
   (⟨Col.inst 0, 0⟩, ⟨Col.advice 1, 0⟩),
   (⟨Col.advice 1, 4⟩, ⟨Col.inst 0, 2⟩)]

/-- Example3's gate list as built by `configure`: one gate named "add1" with
the two polynomials `s * (a + b - c)` and `s * (b + c - d)`, where `c`, `d`
are the next-row queries of the two advice columns. -/
def ex3Gates {F : Type} : List (Gate F) :=
  [⟨"add1",
    [Expr.mul (Expr.sel 0)
      (Expr.sub (Expr.add (Expr.advice 0 0) (Expr.advice 1 0)) (Expr.advice 0 1)),
     Expr.mul (Expr.sel 0)
      (Expr.sub (Expr.add (Expr.advice 1 0) (Expr.advice 0 1)) (Expr.advice 1 1))]⟩]

set_option maxHeartbeats 1000000 in
set_option maxRecDepth 100000 in
/-- Example3's `synthesize` freezes exactly the artifacts above; only the
head of the public-input list (instance row 0) influences the witness. -/
theorem ex3_synth_eq {F : Type} [CommRing F] (p0 : F) (rest : List F) :
    Ex3.MyCircuit.synthesize ⟨(0, 1), 0, 0⟩
      (LayoutState.init ((p0 :: rest).map Value.known)) =
    ⟨ex3Log p0, ex3Sels, ex3Copies, 5, (p0 :: rest).map Value.known⟩ := by
  simp only [Ex3.MyCircuit.synthesize, Ex3.FiboChip.assign,
    Ex3.FiboChip.expose_public,
    LayoutState.assign_region, LayoutState.constrain_instance, LayoutState.init,
    RegionState.enable, RegionState.touch, RegionState.assign_advice,
    RegionState.copy_advice, RegionState.assign_advice_from_instance,
    Value.add, HAdd.hAdd, Add.add, List.range', List.foldl, List.map,
    List.get?, Option.getD,
    List.append, List.cons_append, List.nil_append, List.append_assoc,
    ex3Log, ex3Sels, ex3Copies]
  norm_num

set_option maxHeartbeats 1000000 in
set_option maxRecDepth 100000 in
/-- Example3's run is the row-major gate scan followed by the copy scan over
the frozen artifacts. -/
theorem ex3_run_eq {F : Type} [CommRing F] [DecidableEq F] (p0 : F) (rest : List F) :
    Ex3.run (p0 :: rest) 4 =
      gateViolations ex3Gates (ex3Log p0) ex3Sels 16 ++
        copyViolations ex3Copies (ex3Log p0) (p0 :: rest) := by
  simp only [Ex3.run, Ex3.MyCircuit.configure, Ex3.FiboChip.configure,
    MetaState.empty, MetaState.advice_column, MetaState.instance_column,
    MetaState.selector, MetaState.enable_equality, MetaState.create_gate,
    check, ex3Gates]
  rw [ex3_synth_eq]
  norm_num

set_option maxHeartbeats 2000000 in
set_option maxRecDepth 100000 in
/-- Every gate instance of example3 is satisfied whatever value instance
row 0 supplies: each cell is by construction the sum demanded by the gate
that reads it. -/
theorem ex3_gate_ok {F : Type} [CommRing F] [DecidableEq F] (p0 : F) :
    gateViolations ex3Gates (ex3Log (F := F) p0) ex3Sels 16 = [] := by
  simp [gateViolations, checkPoly, Expr.eval, Expr.rotOk, adviceVal, selEnabled,
    ex3Gates, ex3Log, ex3Sels, Value.add, Value.sub, Value.mul,
    List.foldl, List.any, sub_self]
  intro x hx
  interval_cases x <;> simp [add_comm, sub_self]

/-- C9: example3 copies instance row 0 into both first-row advice cells and
never constrains any cell to instance row 1, so two check runs that differ
only in public_input[1] give identical results. -/
theorem c9_example3_ignores_public_input_1 {F : Type} [CommRing F] [DecidableEq F]
    (p0 p2 v v' : F) :
    (Ex3.MyCircuit.synthesize (Ex3.MyCircuit.configure F).1
        (LayoutState.init (([p0, v, p2]).map Value.known))).copies =
      [(⟨Col.inst 0, 0⟩, ⟨Col.advice 0, 0⟩),
       (⟨Col.inst 0, 0⟩, ⟨Col.advice 1, 0⟩),
       (⟨Col.advice 1, 4⟩, ⟨Col.inst 0, 2⟩)] ∧
    (ex3Copies.all fun pr =>
      !(decide (pr.1 = (⟨Col.inst 0, 1⟩ : Cell)) ||
        decide (pr.2 = (⟨Col.inst 0, 1⟩ : Cell)))) = true ∧
    Ex3.run [p0, v, p2] 4 = Ex3.run [p0, v', p2] 4 := by
  refine ⟨?_, by decide, ?_⟩
  · simp only [Ex3.MyCircuit.configure, Ex3.FiboChip.configure,
      MetaState.empty, MetaState.advice_column, MetaState.instance_column,
      MetaState.selector, MetaState.enable_equality, MetaState.create_gate]
    rw [ex3_synth_eq]
    rfl
  · rw [ex3_run_eq, ex3_run_eq]
    simp [copyViolations, checkCopy, cellVal, adviceVal, ex3Copies, ex3Log,
      List.foldl, List.get?]


/-! ### The checker as a violation accumulator (claim C4). -/

/-- Accumulating optional violations with toList-append over a list equals
the prefix plus the filterMap enumeration. -/
theorem foldl_toList_eq {α β : Type} (f : α → Option β) (l : List α)
    (init : List β) :
    l.foldl (fun acc x => acc ++ (f x).toList) init = init ++ l.filterMap f := by
  induction l generalizing init with
  | nil => simp
  | cons x xs ih =>
    rw [List.foldl_cons, ih, List.append_assoc]
    cases hfx : f x <;> simp [List.filterMap_cons, hfx]

/-- Accumulating list-append over a list equals the prefix plus the flatMap
enumeration. -/
theorem foldl_append_eq {α β : Type} (f : α → List β) (l : List α)
    (init : List β) :
    l.foldl (fun acc x => acc ++ f x) init = init ++ l.flatMap f := by
  induction l generalizing init with
  | nil => simp
  | cons x xs ih => rw [List.foldl_cons, ih, List.append_assoc]; simp

/-- Accumulating copy-constraint violations equals the prefix plus the
declaration-order enumeration. -/
theorem foldl_copy_eq {F : Type} [DecidableEq F] (copies : List (Cell × Cell))
    (log : List (Cell × Value F)) (pub : List F) (init : List (Violation F)) :
    copies.foldl (fun acc pr => acc ++ (checkCopy log pub pr).toList) init =
      init ++ copyViolations copies log pub := by
  induction copies generalizing init with
  | nil => simp [copyViolations]
  | cons pr rest ih =>
    rw [List.foldl_cons, ih, copyViolations, ← List.append_assoc]

/-- The recursive enumeration of copy violations is the filterMap of the
per-constraint check. -/
theorem copyViolations_eq_filterMap {F : Type} [DecidableEq F]
    (copies : List (Cell × Cell)) (log : List (Cell × Value F)) (pub : List F) :
    copyViolations copies log pub = copies.filterMap (checkCopy log pub) := by
  induction copies with
  | nil => rfl
  | cons pr rest ih => cases hfx : checkCopy log pub pr <;>
      simp [copyViolations, List.filterMap_cons, hfx, ih]

/-- C4: the satisfiability checker never stops at the first violation: for
every constraint system, witness table, copy-constraint set and public-input
vector, the accumulate-and-continue scan equals the declarative row-major
enumeration of all gate violations followed by all copy-constraint
violations, and the check passes exactly when both enumerations are empty. -/
theorem c4_checker_accumulates_all {F : Type} [CommRing F] [DecidableEq F]
    (gates : List (Gate F)) (st : LayoutState F) (pub : List F) (n : Nat) :
    checkAccum gates st pub n = check gates st pub n ∧
    check gates st pub n =
      gateViolations gates st.log st.sels n ++ copyViolations st.copies st.log pub ∧
    (check gates st pub n = [] ↔
      gateViolations gates st.log st.sels n = [] ∧
      copyViolations st.copies st.log pub = []) := by
  refine ⟨?_, rfl, by simp [check]⟩
  simp only [checkAccum, check, gateViolations, foldl_toList_eq, foldl_append_eq,
    foldl_copy_eq, List.nil_append, copyViolations_eq_filterMap]

/-! ### Layout determinism and witness independence (claim C5). -/

/-- The layout of a frozen state: which cells were written (in write order),
the enabled selectors, the copy constraints and the row cursor - everything
except the written values. -/
def layoutOf {F : Type} (st : LayoutState F) :
    List Cell × List (Nat × Nat) × List (Cell × Cell) × Nat :=
  (st.log.map Prod.fst, st.sels, st.copies, st.nextRow)

/-- The cells example1 writes, in write order. -/
def ex1Cells : List Cell :=
  [⟨Col.advice 0, 0⟩, ⟨Col.advice 1, 0⟩, ⟨Col.advice 2, 0⟩, ⟨Col.advice 0, 1⟩, ⟨Col.advice 1, 1⟩, ⟨Col.advice 2, 1⟩, ⟨Col.advice 0, 2⟩, ⟨Col.advice 1, 2⟩, ⟨Col.advice 2, 2⟩, ⟨Col.advice 0, 3⟩, ⟨Col.advice 1, 3⟩, ⟨Col.advice 2, 3⟩, ⟨Col.advice 0, 4⟩, ⟨Col.advice 1, 4⟩, ⟨Col.advice 2, 4⟩, ⟨Col.advice 0, 5⟩, ⟨Col.advice 1, 5⟩, ⟨Col.advice 2, 5⟩, ⟨Col.advice 0, 6⟩, ⟨Col.advice 1, 6⟩, ⟨Col.advice 2, 6⟩, ⟨Col.advice 0, 7⟩, ⟨Col.advice 1, 7⟩, ⟨Col.advice 2, 7⟩]

/-- Example1's frozen write log for arbitrary witness wrappers `a`, `b`
(possibly Unknown): the same cells as always, with each value the formal sum
of the two before it. -/
def ex1LogAny {F : Type} [Add F] (a b : Value F) : List (Cell × Value F) :=
  [(⟨Col.advice 0, 0⟩, a),
   (⟨Col.advice 1, 0⟩, b),
   (⟨Col.advice 2, 0⟩, (a + b)),
   (⟨Col.advice 0, 1⟩, b),
   (⟨Col.advice 1, 1⟩, (a + b)),
   (⟨Col.advice 2, 1⟩, (b + (a + b))),
   (⟨Col.advice 0, 2⟩, (a + b)),
   (⟨Col.advice 1, 2⟩, (b + (a + b))),
   (⟨Col.advice 2, 2⟩, ((a + b) + (b + (a + b)))),
   (⟨Col.advice 0, 3⟩, (b + (a + b))),
   (⟨Col.advice 1, 3⟩, ((a + b) + (b + (a + b)))),
   (⟨Col.advice 2, 3⟩, ((b + (a + b)) + ((a + b) + (b + (a + b))))),
   (⟨Col.advice 0, 4⟩, ((a + b) + (b + (a + b)))),
   (⟨Col.advice 1, 4⟩, ((b + (a + b)) + ((a + b) + (b + (a + b))))),
   (⟨Col.advice 2, 4⟩, (((a + b) + (b + (a + b))) + ((b + (a + b)) + ((a + b) + (b + (a + b)))))),
   (⟨Col.advice 0, 5⟩, ((b + (a + b)) + ((a + b) + (b + (a + b))))),
   (⟨Col.advice 1, 5⟩, (((a + b) + (b + (a + b))) + ((b + (a + b)) + ((a + b) + (b + (a + b)))))),
   (⟨Col.advice 2, 5⟩, (((b + (a + b)) + ((a + b) + (b + (a + b)))) + (((a + b) + (b + (a + b))) + ((b + (a + b)) + ((a + b) + (b + (a + b))))))),
   (⟨Col.advice 0, 6⟩, (((a + b) + (b + (a + b))) + ((b + (a + b)) + ((a + b) + (b + (a + b)))))),
   (⟨Col.advice 1, 6⟩, (((b + (a + b)) + ((a + b) + (b + (a + b)))) + (((a + b) + (b + (a + b))) + ((b + (a + b)) + ((a + b) + (b + (a + b))))))),
   (⟨Col.advice 2, 6⟩, ((((a + b) + (b + (a + b))) + ((b + (a + b)) + ((a + b) + (b + (a + b))))) + (((b + (a + b)) + ((a + b) + (b + (a + b)))) + (((a + b) + (b + (a + b))) + ((b + (a + b)) + ((a + b) + (b + (a + b)))))))),
   (⟨Col.advice 0, 7⟩, (((b + (a + b)) + ((a + b) + (b + (a + b)))) + (((a + b) + (b + (a + b))) + ((b + (a + b)) + ((a + b) + (b + (a + b))))))),
   (⟨Col.advice 1, 7⟩, ((((a + b) + (b + (a + b))) + ((b + (a + b)) + ((a + b) + (b + (a + b))))) + (((b + (a + b)) + ((a + b) + (b + (a + b)))) + (((a + b) + (b + (a + b))) + ((b + (a + b)) + ((a + b) + (b + (a + b)))))))),
   (⟨Col.advice 2, 7⟩, ((((b + (a + b)) + ((a + b) + (b + (a + b)))) + (((a + b) + (b + (a + b))) + ((b + (a + b)) + ((a + b) + (b + (a + b)))))) + ((((a + b) + (b + (a + b))) + ((b + (a + b)) + ((a + b) + (b + (a + b))))) + (((b + (a + b)) + ((a + b) + (b + (a + b)))) + (((a + b) + (b + (a + b))) + ((b + (a + b)) + ((a + b) + (b + (a + b)))))))))]

set_option maxHeartbeats 1000000 in
set_option maxRecDepth 100000 in
/-- Example1's `synthesize` on arbitrary witness wrappers freezes the same
cells, selectors and copy constraints as the witness-bearing pass. -/
theorem ex1_synth_any_eq {F : Type} [CommRing F] (a b : Value F)
    (pub : List (Value F)) :
    Ex1.MyCircuit.synthesize ⟨(0, 1, 2), 0, 0⟩ a b (LayoutState.init pub) =
    ⟨ex1LogAny a b, ex1Sels, ex1Copies, 8, pub⟩ := by
  simp only [Ex1.MyCircuit.synthesize, Ex1.FiboChip.assign_first_row,
    Ex1.FiboChip.assign_row, Ex1.FiboChip.expose_public,
    LayoutState.assign_region, LayoutState.constrain_instance, LayoutState.init,
    RegionState.enable, RegionState.touch, RegionState.assign_advice,
    RegionState.copy_advice, RegionState.assign_advice_from_instance,
    List.range', List.foldl, List.map,
    List.append, List.cons_append, List.nil_append, List.append_assoc,
    ex1LogAny, ex1Sels, ex1Copies]
  norm_num

/-- Example1's layout does not depend on the witness values (known or
unknown) nor on the instance column contents. -/
theorem ex1_layout_eq {F : Type} [CommRing F] (a b : Value F)
    (pub : List (Value F)) :
    layoutOf (Ex1.MyCircuit.synthesize ⟨(0, 1, 2), 0, 0⟩ a b (LayoutState.init pub)) =
      (ex1Cells, ex1Sels, ex1Copies, 8) := by
  rw [ex1_synth_any_eq]
  simp [layoutOf, ex1LogAny, ex1Cells]

/-- C5: layout is deterministic and witness-independent: re-running
configure and synthesize on identical inputs gives identical frozen
constraint systems and witness tables (the embedding is a pure function of
its inputs), and a shape-only pass (witness values Unknown, as produced by
without_witnesses) yields exactly the same cell placement, selector set,
copy-constraint set and row cursor as any witness-bearing pass - only cell
values can differ between the two passes, never layout. -/
theorem c5_layout_deterministic_witness_independent {F : Type} [CommRing F]
    (a b : Value F) (pub pub' : List (Value F)) :
    (Ex1.MyCircuit.configure F = Ex1.MyCircuit.configure F ∧
     Ex1.MyCircuit.synthesize (Ex1.MyCircuit.configure F).1 a b (LayoutState.init pub) =
       Ex1.MyCircuit.synthesize (Ex1.MyCircuit.configure F).1 a b (LayoutState.init pub)) ∧
    layoutOf (Ex1.MyCircuit.synthesize (Ex1.MyCircuit.configure F).1 a b
        (LayoutState.init pub)) =
      layoutOf (Ex1.MyCircuit.synthesize (Ex1.MyCircuit.configure F).1
        Value.unknown Value.unknown (LayoutState.init pub')) := by
  refine ⟨⟨rfl, rfl⟩, ?_⟩
  have hcfg : (Ex1.MyCircuit.configure F).1 = ⟨(0, 1, 2), 0, 0⟩ := rfl
  rw [hcfg, ex1_layout_eq, ex1_layout_eq]

/-! ### Out-of-range rotations are skipped (claim C6). -/

/-- C6: a gate polynomial that queries a rotation landing past the last row
is skipped at that row rather than producing an error or reading out of
range: for example2's gate (which queries rotation 2), at every row r of an
n-row table with n ≤ r + 2 the rotation check fails, the polynomial check
yields no violation whatever the table contents, and a selector query is
never blocked by the rotation check. -/
theorem c6_out_of_range_rotation_skipped {F : Type} [CommRing F] [DecidableEq F]
    (log : List (Cell × Value F)) (sels : List (Nat × Nat)) (n r : Nat)
    (h : n ≤ r + 2) :
    (Expr.advice (F := F) 0 2).rotOk n r = false ∧
    ((Ex2.MyCircuit.configure F).2.gates.map fun g =>
        g.polys.map fun p => checkPoly log sels n r g.name p) = [[none]] ∧
    (Expr.sel (F := F) 0).rotOk n r = true := by
  have h2 : ¬((r : Int) + 2 < (n : Int)) := by omega
  refine ⟨?_, ?_, rfl⟩
  · simp [Expr.rotOk, h2]
  · simp only [Ex2.MyCircuit.configure, Ex2.FiboChip.configure,
      MetaState.empty, MetaState.advice_column, MetaState.instance_column,
      MetaState.selector, MetaState.enable_equality, MetaState.create_gate]
    simp [checkPoly, Expr.rotOk, h2]

/-- Witness for C6 at the concrete bottom rows of example2's table: with
k = 4 (16 rows), row 14 queries rotation 2 out of range and is skipped. -/
theorem c6_out_of_range_rotation_skipped_witness :
    (Expr.advice (F := Fp) 0 2).rotOk 16 14 = false ∧
    ((Ex2.MyCircuit.configure Fp).2.gates.map fun g =>
        g.polys.map fun p => checkPoly [] [] 16 14 g.name p) = [[none]] ∧
    (Expr.sel (F := Fp) 0).rotOk 16 14 = true :=
  c6_out_of_range_rotation_skipped [] [] 16 14 (by decide)


/-! ### Which rows example2 enables (claim C8). -/

/-- A selector is enabled at a row exactly when the pair was recorded. -/
theorem selEnabled_iff_mem (sels : List (Nat × Nat)) (s row : Nat) :
    selEnabled sels s row = true ↔ (s, row) ∈ sels := by
  simp [selEnabled, List.any_eq_true]

/-- The per-iteration effect of example2's loop on the selector log. -/
theorem ex2_loopStep_sels {F : Type} [CommRing F] (config : Ex2.FiboConfig)
    (nrows : Nat) (acc : (AssignedCell F × AssignedCell F) × RegionState F)
    (row : Nat) :
    (Ex2.FiboChip.loopStep config nrows acc row).2.st.sels =
      acc.2.st.sels ++
        (if row < nrows - 2 then [(config.selector, acc.2.base + row)] else []) := by
  simp only [Ex2.FiboChip.loopStep, RegionState.enable, RegionState.touch,
    RegionState.assign_advice]
  split <;> simp

/-- Example2's loop does not move the region base. -/
theorem ex2_loopStep_base {F : Type} [CommRing F] (config : Ex2.FiboConfig)
    (nrows : Nat) (acc : (AssignedCell F × AssignedCell F) × RegionState F)
    (row : Nat) :
    (Ex2.FiboChip.loopStep config nrows acc row).2.base = acc.2.base := by
  simp only [Ex2.FiboChip.loopStep, RegionState.enable, RegionState.touch,
    RegionState.assign_advice]
  split <;> simp

/-- Folding example2's loop over any row list appends exactly the enables of
the rows passing the boundary test row < nrows - 2. -/
theorem ex2_loop_sels {F : Type} [CommRing F] (config : Ex2.FiboConfig)
    (nrows : Nat) (l : List Nat)
    (acc : (AssignedCell F × AssignedCell F) × RegionState F) :
    (l.foldl (Ex2.FiboChip.loopStep config nrows) acc).2.st.sels =
      acc.2.st.sels ++ (l.filter (fun row => row < nrows - 2)).map
        (fun row => (config.selector, acc.2.base + row)) := by
  induction l generalizing acc with
  | nil => simp
  | cons row rest ih =>
    rw [List.foldl_cons, ih, ex2_loopStep_sels, ex2_loopStep_base]
    by_cases hrow : row < nrows - 2
    · simp [List.filter_cons, hrow, List.append_assoc]
    · simp [List.filter_cons, hrow]

set_option maxHeartbeats 1000000 in
set_option maxRecDepth 100000 in
/-- Example2's assign enables the selector at row 0 and at exactly the loop
rows passing the boundary test. -/
theorem ex2_assign_sels {F : Type} [CommRing F] (nrows : Nat)
    (pubv : List (Value F)) :
    (Ex2.FiboChip.assign (F := F) ⟨0, 0, 0⟩ nrows (LayoutState.init pubv)).2.sels =
      (0, 0) :: ((List.range' 2 (nrows - 2)).filter (fun row => row < nrows - 2)).map
        (fun row => (0, row)) := by
  simp only [Ex2.FiboChip.assign, LayoutState.assign_region, LayoutState.init,
    RegionState.enable, RegionState.touch, RegionState.assign_advice,
    RegionState.assign_advice_from_instance]
  rw [ex2_loop_sels]
  simp

/-- C8: in example2's assign with nrows rows, the selector is enabled
exactly at rows {0} together with {2, ..., nrows - 3} and at no other row;
in particular row 1 is never enabled, so the gate instance at row 1 (the
one relating the advice values at rows 1, 2 and 3) yields no violation for
any table contents and any table size. -/
theorem c8_example2_selector_rows {F : Type} [CommRing F] [DecidableEq F]
    (nrows : Nat) (pubv : List (Value F)) :
    (∀ r : Nat,
      selEnabled (Ex2.FiboChip.assign (F := F) ⟨0, 0, 0⟩ nrows
          (LayoutState.init pubv)).2.sels 0 r = true ↔
        (r = 0 ∨ (2 ≤ r ∧ r ≤ nrows - 3))) ∧
    selEnabled (Ex2.FiboChip.assign (F := F) ⟨0, 0, 0⟩ nrows
        (LayoutState.init pubv)).2.sels 0 1 = false ∧
    (∀ (log : List (Cell × Value F)) (n : Nat),
      checkPoly log (Ex2.FiboChip.assign (F := F) ⟨0, 0, 0⟩ nrows
          (LayoutState.init pubv)).2.sels n 1 "add"
        (Expr.mul (Expr.sel 0)
          (Expr.sub (Expr.add (Expr.advice 0 0) (Expr.advice 0 1))
            (Expr.advice 0 2))) = none) := by
  have hmem : ∀ r : Nat,
      selEnabled (Ex2.FiboChip.assign (F := F) ⟨0, 0, 0⟩ nrows
          (LayoutState.init pubv)).2.sels 0 r = true ↔
        (r = 0 ∨ (2 ≤ r ∧ r ≤ nrows - 3)) := by
    intro r
    rw [ex2_assign_sels, selEnabled_iff_mem]
    simp [List.mem_cons, List.mem_map, List.mem_filter, List.mem_range'_1,
      Prod.mk.injEq, decide_eq_true_eq]
    omega
  have hfalse : selEnabled (Ex2.FiboChip.assign (F := F) ⟨0, 0, 0⟩ nrows
      (LayoutState.init pubv)).2.sels 0 1 = false := by
    rw [Bool.eq_false_iff]
    intro hcontra
    have := (hmem 1).mp hcontra
    omega
  refine ⟨hmem, hfalse, ?_⟩
  intro log n
  simp only [checkPoly]
  split
  · simp only [Expr.eval, hfalse, Bool.false_eq_true, if_false]
    norm_num
    cases hX : Value.sub (Value.add (adviceVal log 0 1) (adviceVal log 0 (Int.toNat 2)))
        (adviceVal log 0 (Int.toNat 3)) with
    | unknown => rfl
    | known x => simp [Value.mul, zero_mul]
  · rfl


end Plonkish
